import Mathlib

/-!
Shallow embedding of the ARS-Simulator repository core
(`src/graphics/window.py`, `src/simulation/sub_controller/robot_controller.py`,
`src/commander/sub_controller/robot_controller.py`,
`src/commander/sub_controller/goal_controller.py`) and proofs of the
specification's claims about it.

Python dictionaries are modelled as insertion-ordered association lists
(`List (κ × α)`): assignment `d[k] = v` replaces the value at the first
occurrence of `k` or appends, `d.pop(k, default)` removes the entry when
present and is a no-op otherwise, `del d[k]` fails (KeyError) when the key
is absent, and `d.values()` is the list of values in insertion order.
A genuine Python dict always has no duplicate keys; theorems that need
this state it as a `Nodup` hypothesis on the key list.
-/

namespace ARS

section PyDict

variable {κ α : Type} [DecidableEq κ]

/-- Python `d[k]` as a total lookup: the value at the first occurrence of `k`. -/
def dictGet (k : κ) : List (κ × α) → Option α
  | [] => none
  | (k', v) :: rest => if k' = k then some v else dictGet k rest

/-- Python `d[k] = v`: replace the value at the first occurrence of `k`, else append. -/
def dictSet (k : κ) (v : α) : List (κ × α) → List (κ × α)
  | [] => [(k, v)]
  | (k', v') :: rest => if k' = k then (k, v) :: rest else (k', v') :: dictSet k v rest

/-- Python `d.pop(k, default)`: remove the entry for `k` when present, else a no-op. -/
def dictPop (k : κ) : List (κ × α) → List (κ × α)
  | [] => []
  | (k', v') :: rest => if k' = k then rest else (k', v') :: dictPop k rest

/-- Python `del d[k]`: `none` models the KeyError raised when `k` is absent. -/
def dictDel (k : κ) : List (κ × α) → Option (List (κ × α))
  | [] => none
  | (k', v') :: rest =>
    if k' = k then some rest else (dictDel k rest).map (fun r => (k', v') :: r)

/-- The keys of the dictionary, in insertion order. -/
def keys (d : List (κ × α)) : List κ := d.map Prod.fst

/-- Python `k in d`. -/
def hasKey (k : κ) (d : List (κ × α)) : Bool := (dictGet k d).isSome

theorem dictGet_dictSet_self (k : κ) (v : α) (d : List (κ × α)) :
    dictGet k (dictSet k v d) = some v := by
  induction d with
  | nil => simp [dictGet, dictSet]
  | cons hd tl ih =>
    obtain ⟨k', v'⟩ := hd
    by_cases h : k' = k
    · simp [dictGet, dictSet, h]
    · simp [dictGet, dictSet, h, ih]

theorem dictGet_dictSet_ne (k k' : κ) (v : α) (d : List (κ × α)) (h : k' ≠ k) :
    dictGet k' (dictSet k v d) = dictGet k' d := by
  have h' : ¬ k = k' := fun hh => h hh.symm
  induction d with
  | nil => simp [dictGet, dictSet, h']
  | cons hd tl ih =>
    obtain ⟨k₀, v₀⟩ := hd
    by_cases hk : k₀ = k
    · subst hk
      simp [dictGet, dictSet, h']
    · simp [dictGet, dictSet, hk, ih]

theorem dictGet_eq_none_iff (k : κ) (d : List (κ × α)) :
    dictGet k d = none ↔ k ∉ keys d := by
  induction d with
  | nil => simp [dictGet, keys]
  | cons hd tl ih =>
    obtain ⟨k₀, v₀⟩ := hd
    by_cases hk : k₀ = k
    · subst hk
      simp [dictGet, keys]
    · have hk' : ¬ k = k₀ := fun hh => hk hh.symm
      simp [dictGet, keys, hk, hk'] at ih ⊢
      simpa [keys] using ih

theorem hasKey_iff_mem (k : κ) (d : List (κ × α)) : hasKey k d = true ↔ k ∈ keys d := by
  rw [hasKey, Option.isSome_iff_ne_none, Ne, dictGet_eq_none_iff]
  exact not_not

theorem keys_dictSet (k : κ) (v : α) (d : List (κ × α)) :
    keys (dictSet k v d) = if k ∈ keys d then keys d else keys d ++ [k] := by
  induction d with
  | nil => simp [dictSet, keys]
  | cons hd tl ih =>
    obtain ⟨k₀, v₀⟩ := hd
    by_cases hk : k₀ = k
    · subst hk
      simp [dictSet, keys]
    · have hk' : ¬ k = k₀ := fun hh => hk hh.symm
      simp only [dictSet, if_neg hk, keys, List.map_cons] at ih ⊢
      rw [ih]
      by_cases hmem : k ∈ List.map Prod.fst tl <;>
        simp [hmem, hk', List.mem_cons]

theorem nodup_keys_dictSet (k : κ) (v : α) (d : List (κ × α))
    (h : (keys d).Nodup) : (keys (dictSet k v d)).Nodup := by
  rw [keys_dictSet]
  by_cases hmem : k ∈ keys d
  · simpa [hmem] using h
  · simp [hmem, List.nodup_append, h]

theorem dictPop_of_absent (k : κ) (d : List (κ × α)) (h : dictGet k d = none) :
    dictPop k d = d := by
  induction d with
  | nil => rfl
  | cons hd tl ih =>
    obtain ⟨k₀, v₀⟩ := hd
    by_cases hk : k₀ = k
    · simp [dictGet, hk] at h
    · simp [dictGet, hk] at h
      simp [dictPop, hk, ih h]

theorem dictDel_eq_none_of_absent (k : κ) (d : List (κ × α)) (h : dictGet k d = none) :
    dictDel k d = none := by
  induction d with
  | nil => rfl
  | cons hd tl ih =>
    obtain ⟨k₀, v₀⟩ := hd
    by_cases hk : k₀ = k
    · simp [dictGet, hk] at h
    · simp [dictGet, hk] at h
      simp [dictDel, hk, ih h]

theorem dictDel_isSome_of_hasKey (k : κ) (d : List (κ × α)) (h : hasKey k d = true) :
    ∃ d', dictDel k d = some d' := by
  induction d with
  | nil => simp [hasKey, dictGet] at h
  | cons hd tl ih =>
    obtain ⟨k₀, v₀⟩ := hd
    by_cases hk : k₀ = k
    · exact ⟨tl, by simp [dictDel, hk]⟩
    · simp only [hasKey, dictGet, if_neg hk] at h
      obtain ⟨d', hd'⟩ := ih h
      exact ⟨(k₀, v₀) :: d', by simp [dictDel, hk, hd']⟩

theorem keys_dictDel (k : κ) (d : List (κ × α)) :
    ∀ d', dictDel k d = some d' → keys d' = (keys d).erase k := by
  induction d with
  | nil => intro d' h; simp [dictDel] at h
  | cons hd tl ih =>
    obtain ⟨k₀, v₀⟩ := hd
    intro d' h
    by_cases hk : k₀ = k
    · subst hk
      simp only [dictDel, if_pos rfl, if_true, Option.some.injEq] at h
      subst h
      simp [keys, List.erase_cons_head]
    · simp only [dictDel, if_neg hk, Option.map_eq_some'] at h
      obtain ⟨r, hr, hr'⟩ := h
      subst hr'
      simp [keys, List.erase_cons, hk]
      exact ih r hr

theorem nodup_keys_dictDel (k : κ) (d d' : List (κ × α))
    (hn : (keys d).Nodup) (h : dictDel k d = some d') : (keys d').Nodup := by
  rw [keys_dictDel k d d' h]
  exact hn.erase k

theorem dictGet_dictDel_self (k : κ) (d d' : List (κ × α))
    (hn : (keys d).Nodup) (h : dictDel k d = some d') : dictGet k d' = none := by
  rw [dictGet_eq_none_iff, keys_dictDel k d d' h]
  intro hmem
  exact ((List.Nodup.mem_erase_iff hn).mp hmem).1 rfl

theorem dictGet_dictDel_ne (k k' : κ) (hne : k' ≠ k) (d : List (κ × α)) :
    ∀ d', dictDel k d = some d' → dictGet k' d' = dictGet k' d := by
  induction d with
  | nil => intro d' h; simp [dictDel] at h
  | cons hd tl ih =>
    obtain ⟨k₀, v₀⟩ := hd
    intro d' h
    by_cases hk : k₀ = k
    · subst hk
      simp only [dictDel, if_pos rfl, if_true, Option.some.injEq] at h
      subst h
      have hcond : ¬ k₀ = k' := fun hh => hne hh.symm
      simp [dictGet, hcond]
    · simp only [dictDel, if_neg hk, Option.map_eq_some'] at h
      obtain ⟨r, hr, hr'⟩ := h
      subst hr'
      by_cases hk' : k₀ = k'
      · simp [dictGet, hk']
      · simp [dictGet, hk', ih r hr]

end PyDict

/-! ## The window (`src/graphics/window.py`, class `BaseWindow`) -/

/-- Modelled from the spec: the event-type constants (`commander/window.py` and
`simulation/window.py` are not under src/; the spec describes "keyboard shortcuts
(toggle placement mode per entity) and mouse clicks (commit placement)" dispatched
per event type). They are distinct identifiers used as keys of the callback table. -/
inductive EventType where
  | QUIT
  | MOUSE_CLICK
  | CREATOR_PLACE_ROBOT
  | CREATOR_PLACE_GOAL
  | MANUAL_LEFT_INCREASE
  | MANUAL_LEFT_DECREASE
  | MANUAL_RIGHT_INCREASE
  | MANUAL_RIGHT_DECREASE
  | MANUAL_BOTH_INCREASE
deriving DecidableEq

/-- The textual name of an event type, used as the payload of the KeyError raised
by `del self._callbacks[type]` on an unregistered type. -/
def EventType.name : EventType → String
  | .QUIT => "QUIT"
  | .MOUSE_CLICK => "MOUSE_CLICK"
  | .CREATOR_PLACE_ROBOT => "CREATOR_PLACE_ROBOT"
  | .CREATOR_PLACE_GOAL => "CREATOR_PLACE_GOAL"
  | .MANUAL_LEFT_INCREASE => "MANUAL_LEFT_INCREASE"
  | .MANUAL_LEFT_DECREASE => "MANUAL_LEFT_DECREASE"
  | .MANUAL_RIGHT_INCREASE => "MANUAL_RIGHT_INCREASE"
  | .MANUAL_RIGHT_DECREASE => "MANUAL_RIGHT_DECREASE"
  | .MANUAL_BOTH_INCREASE => "MANUAL_BOTH_INCREASE"

/-- Python exceptions raised by the embedded code: `KeyError` from dictionary
lookups and `del`, `ValueError` from the frame-rate setter. -/
inductive PyErr where
  | keyError (key : String)
  | valueError (msg : String)
deriving DecidableEq

/-- The state of `graphics.window.BaseWindow` relevant to the claims:
the stored frame rate (`self._frame_rate`), the callback table
(`self._callbacks`, a dict from event type to callback function), the sprite
table (`self._sprites`, a dict from name to `(zindex, sprite)`), and the sorted
sprite list (`self._sprite_list`). `σ` is the type of sprite objects and `κ`
the type of callback functions, both opaque to the window. -/
structure BaseWindow (σ κ : Type) where
  frame_rate : Int
  callbacks : List (EventType × κ)
  sprites : List (String × (Int × σ))
  sprite_list : List (Int × σ)

/-- The comparison underlying `self._sprite_list.sort(key=comp, reverse=True)`
with `comp = lambda sprite: sprite[0]`: a stable sort into descending zindex
order (`le a b` holds when `a` may precede `b`, i.e. when `b`'s zindex is at
most `a`'s). -/
def zindexDescLe {σ : Type} (a b : Int × σ) : Bool := decide (b.1 ≤ a.1)

/-- `BaseWindow._update_sprite_list`: `self._sprite_list = list(self._sprites.values())`
followed by a stable sort with key `sprite[0]` and `reverse=True`. -/
def BaseWindow.update_sprite_list {σ κ : Type} (w : BaseWindow σ κ) : BaseWindow σ κ :=
  { w with sprite_list := (w.sprites.map Prod.snd).mergeSort zindexDescLe }

/-- `BaseWindow.add_sprite`: `self._sprites[name] = (zindex, sprite)` then
`self._update_sprite_list()` (the Python default for `zindex` is 0). -/
def BaseWindow.add_sprite {σ κ : Type} (w : BaseWindow σ κ) (name : String)
    (sprite : σ) (zindex : Int) : BaseWindow σ κ :=
  BaseWindow.update_sprite_list { w with sprites := dictSet name (zindex, sprite) w.sprites }

/-- `BaseWindow.remove_sprite`: `self._sprites.pop(name, "")` (a no-op when the
name is unregistered) then `self._update_sprite_list()`. -/
def BaseWindow.remove_sprite {σ κ : Type} (w : BaseWindow σ κ) (name : String) :
    BaseWindow σ κ :=
  BaseWindow.update_sprite_list { w with sprites := dictPop name w.sprites }

/-- `BaseWindow.on_callback`: `self._callbacks[type] = func`. -/
def BaseWindow.on_callback {σ κ : Type} (w : BaseWindow σ κ) (type : EventType)
    (func : κ) : BaseWindow σ κ :=
  { w with callbacks := dictSet type func w.callbacks }

/-- `BaseWindow.remove_callback`: `del self._callbacks[type]`, which raises a
KeyError when no callback is registered for `type`. -/
def BaseWindow.remove_callback {σ κ : Type} (w : BaseWindow σ κ) (type : EventType) :
    Except PyErr (BaseWindow σ κ) :=
  match dictDel type w.callbacks with
  | none => .error (.keyError type.name)
  | some cbs => .ok { w with callbacks := cbs }

/-- The `frame_rate` property setter: raises
`ValueError("The frame rate has to be between 1 and 60.")` when
`frame_rate < 1 or frame_rate > 60`, else stores the value. -/
def BaseWindow.set_frame_rate {σ κ : Type} (w : BaseWindow σ κ) (frame_rate : Int) :
    Except PyErr (BaseWindow σ κ) :=
  if frame_rate < 1 ∨ frame_rate > 60 then
    .error (.valueError "The frame rate has to be between 1 and 60.")
  else
    .ok { w with frame_rate := frame_rate }

/-- The sprites drawn by one iteration of the render loop in `BaseWindow.start`
(`for _, sprite in self._sprite_list: sprite.draw()`), in drawing order. -/
def BaseWindow.frame_draw_pass {σ κ : Type} (w : BaseWindow σ κ) : List σ :=
  w.sprite_list.map Prod.snd

/-! ## Serialized values and the robot sprite -/

/-- A Python value as stored in the serialization dictionaries: a number
(the integer pixel coordinates and the direction; the roundtrip claims do not
depend on the numeric type, so numbers are embedded as `Int`) or a nested dict. -/
inductive PyVal where
  | int : Int → PyVal
  | dict : List (String × PyVal) → PyVal

/-- Modelled from the spec: the sprite class `graphics.objects.robot.Robot` is
not under src/. Per the spec's glossary a sprite is "a visual entity drawn each
frame at a position/orientation"; the controllers use its accessors
`get_position`/`set_position` and `get_direction`/`set_direction`, which read
and write the stored position and orientation. The fields hold `PyVal` because
the untyped Python setters store whatever value deserialization hands them. -/
structure RobotSprite where
  x : PyVal
  y : PyVal
  direction : PyVal

/-- `Robot.set_position(pos)` (modelled accessor): store the pair. -/
def RobotSprite.set_position (s : RobotSprite) (pos : PyVal × PyVal) : RobotSprite :=
  { s with x := pos.1, y := pos.2 }

/-- `Robot.get_position()` (modelled accessor): return the stored pair. -/
def RobotSprite.get_position (s : RobotSprite) : PyVal × PyVal := (s.x, s.y)

/-- `Robot.set_direction(dir)` (modelled accessor): store the direction. -/
def RobotSprite.set_direction (s : RobotSprite) (dir : PyVal) : RobotSprite :=
  { s with direction := dir }

/-- `Robot.get_direction()` (modelled accessor): return the stored direction. -/
def RobotSprite.get_direction (s : RobotSprite) : PyVal := s.direction

/-! ## The robot and goal controllers
(`src/simulation/sub_controller/robot_controller.py`,
`src/commander/sub_controller/robot_controller.py`,
`src/commander/sub_controller/goal_controller.py`; the `toggle`,
`_on_mouse_click`, `to_dict` and `from_dict` bodies of the two robot-controller
variants are identical in everything the claims mention — the commander variant
additionally rebuilds `self._robot = SimRobot(...)` from `d["x"], d["y"]` in
`from_dict`, a motion-model object outside every claim). -/

/-- Modelled from the spec: the application-mode constants `CREATOR` and
`MANUAL` (from `commander/__init__.py` / `simulation/__init__.py`, not under
src/): distinct mode identifiers. -/
inductive AppMode where
  | CREATOR
  | MANUAL
deriving DecidableEq

/-- An RGB color. -/
abbrev Color := Nat × Nat × Nat

/-- Modelled from the spec: the shortcut text color constant from
`commander/__init__.py` / `simulation/__init__.py` (not under src/). The claims
refer to the two color constants only by name; they are distinct colors. -/
def SHORTCUT_TEXT_COLOR : Color := (255, 255, 255)

/-- Modelled from the spec: the highlighted shortcut text color constant, see
`SHORTCUT_TEXT_COLOR`. -/
def SHORTCUT_TEXT_COLOR_ACTIVE : Color := (255, 100, 100)

/-- The identity of a callback function registered with the window. The window
stores the functions themselves and never calls more than one per event type;
for the embedding their identity suffices. -/
inductive CallbackTag where
  | onMouseClick
  | toggleRobot
  | toggleGoal
  | other (n : Nat)
deriving DecidableEq

/-- The window as the robot controller sees it (the sprite objects it registers
are irrelevant to the claims, the callbacks are identified by tag). -/
abbrev CtrlWindow := BaseWindow Unit CallbackTag

/-- The state of `RobotController` relevant to the claims: `self._app_mode`, the
`_toggled` flag inherited from `BaseSubController`, the robot sprite
(`self._robot` in the simulation variant, `self._sprite_robot` in the commander
variant), the color of the shortcut text `self._text_robot` (the text sprite
exists in CREATOR mode), and the window `self._window`. -/
structure RobotController where
  app_mode : AppMode
  toggled : Bool
  sprite : RobotSprite
  text_color : Color
  window : CtrlWindow

/-- `RobotController.toggle`. `super().toggle(call)` is modelled from the spec
(`graphics/sub_controller.py` with `BaseSubController` is not under src/): per
the glossary, "Toggle mode: a controller state in which the next mouse click
commits a new position for its associated sprite", and toggling flips the
`_toggled` flag (the notification of the main controller, skipped when `call`
is false, lies outside the embedded state). The rest is from the source: when
now toggled, register the MOUSE_CLICK callback and highlight the shortcut text;
when now untoggled, remove the MOUSE_CLICK callback (`del`, which can raise a
KeyError) and restore SHORTCUT_TEXT_COLOR. -/
def RobotController.toggle (c : RobotController) : Except PyErr RobotController :=
  let c' := { c with toggled := !c.toggled }
  if c'.toggled then
    .ok { c' with
            window := c'.window.on_callback .MOUSE_CLICK .onMouseClick,
            text_color := SHORTCUT_TEXT_COLOR_ACTIVE }
  else
    match c'.window.remove_callback .MOUSE_CLICK with
    | .error e => .error e
    | .ok w => .ok { c' with window := w, text_color := SHORTCUT_TEXT_COLOR }

/-- `RobotController._on_mouse_click(pos)`: `self._robot.set_position(pos)` then
`self.toggle()`. The mouse position is a pair of integer pixel coordinates. -/
def RobotController.on_mouse_click (c : RobotController) (pos : Int × Int) :
    Except PyErr RobotController :=
  let c' := { c with
                sprite := c.sprite.set_position (PyVal.int pos.1, PyVal.int pos.2) }
  c'.toggle

/-- `RobotController.to_dict`: the four assignments `dict_file = {}`,
`dict_file["robot"] = {}`, `dict_file["robot"]["x"] = x`, ... build the nested
dict `{"robot": {"x": x, "y": y, "direction": dir}}` with keys in insertion
order, where `x, y = self._robot.get_position()` and
`dir = self._robot.get_direction()`. -/
def RobotController.to_dict (c : RobotController) : List (String × PyVal) :=
  let x := c.sprite.get_position.1
  let y := c.sprite.get_position.2
  [("robot", PyVal.dict [("x", x), ("y", y), ("direction", c.sprite.get_direction)])]

/-- `RobotController.from_dict(d)`: reads `d["x"]`, `d["y"]` and
`d["direction"]` (each lookup can raise a KeyError) and only then writes the
sprite's position and direction. The result pairs the controller state after
the call with the exception raised, if any; since all three lookups precede the
first mutation, on a KeyError the state comes back unchanged. -/
def RobotController.from_dict_run (c : RobotController) (d : List (String × PyVal)) :
    RobotController × Option PyErr :=
  match dictGet "x" d with
  | none => (c, some (.keyError "x"))
  | some xv =>
    match dictGet "y" d with
    | none => (c, some (.keyError "y"))
    | some yv =>
      match dictGet "direction" d with
      | none => (c, some (.keyError "direction"))
      | some dv =>
        ({ c with sprite := (c.sprite.set_position (xv, yv)).set_direction dv }, none)

/-- The state of `GoalController` (`commander/sub_controller/goal_controller.py`):
only the `_toggled` flag from `BaseSubController`; the goal sprite is
unimplemented (a TODO in the source). -/
structure GoalController where
  toggled : Bool

/-- `GoalController.to_dict`: `return {}` — the empty dict stored under the
key `goal` of the persisted document. -/
def GoalController.to_dict (_g : GoalController) : List (String × PyVal) := []

/-! ## Concrete sample states (used to instantiate theorems on closed inputs) -/

/-- A concrete robot sprite at position (7, 11) facing direction 3. -/
def sampleSprite : RobotSprite :=
  { x := PyVal.int 7, y := PyVal.int 11, direction := PyVal.int 3 }

/-- A concrete window with one registered callback (the CREATOR-mode robot
placement shortcut) and no sprites. -/
def sampleWindow : CtrlWindow :=
  { frame_rate := 60
    callbacks := [(EventType.CREATOR_PLACE_ROBOT, CallbackTag.toggleRobot)]
    sprites := []
    sprite_list := [] }

/-- A concrete non-toggled CREATOR-mode robot controller. -/
def sampleCtrl : RobotController :=
  { app_mode := AppMode.CREATOR
    toggled := false
    sprite := sampleSprite
    text_color := SHORTCUT_TEXT_COLOR
    window := sampleWindow }

/-- A concrete toggled CREATOR-mode robot controller whose window has the
MOUSE_CLICK callback registered (as `toggle` leaves it). -/
def sampleToggledCtrl : RobotController :=
  { app_mode := AppMode.CREATOR
    toggled := true
    sprite := sampleSprite
    text_color := SHORTCUT_TEXT_COLOR_ACTIVE
    window :=
      { frame_rate := 60
        callbacks := [(EventType.CREATOR_PLACE_ROBOT, CallbackTag.toggleRobot),
                      (EventType.MOUSE_CLICK, CallbackTag.onMouseClick)]
        sprites := []
        sprite_list := [] } }

/-! ## The claims -/

/-- C1, counterexample to the claim as stated: deserializing the direct result
of `to_dict` with `from_dict` does not yield a state at all — it raises
KeyError("x"), because `to_dict` wraps the record under the key "robot" while
`from_dict` expects the bare record with keys "x", "y", "direction". -/
theorem c1_roundtrip_counterexample :
    (RobotController.from_dict_run sampleCtrl (RobotController.to_dict sampleCtrl)).2
      = some (PyErr.keyError "x") := rfl

/-- C1, amended: serializing with `to_dict` and deserializing the "robot" entry
of the result with `from_dict` yields a state whose sprite x, y and direction
equal the originals. -/
theorem c1_roundtrip_robot_entry (c : RobotController) :
    ∃ inner,
      dictGet "robot" (RobotController.to_dict c) = some (PyVal.dict inner) ∧
      (RobotController.from_dict_run c inner).2 = none ∧
      (RobotController.from_dict_run c inner).1.sprite.x = c.sprite.x ∧
      (RobotController.from_dict_run c inner).1.sprite.y = c.sprite.y ∧
      (RobotController.from_dict_run c inner).1.sprite.direction = c.sprite.direction := by
  refine ⟨[("x", c.sprite.x), ("y", c.sprite.y), ("direction", c.sprite.direction)],
          ?_, ?_, ?_, ?_, ?_⟩ <;>
    simp [RobotController.to_dict, RobotController.from_dict_run, dictGet,
      RobotSprite.get_position, RobotSprite.get_direction, RobotSprite.set_position,
      RobotSprite.set_direction]

/-- C2: the serialized state is a nested key-value document: every robot
controller serializes to exactly `{"robot": {"x": x, "y": y, "direction": d}}`
with the sprite's stored values, and every goal controller serializes to the
empty mapping (the value the persisted document holds under the key "goal"). -/
theorem c2_serialized_document_shape (c : RobotController) (g : GoalController) :
    RobotController.to_dict c =
      [("robot", PyVal.dict
          [("x", c.sprite.x), ("y", c.sprite.y), ("direction", c.sprite.direction)])] ∧
    GoalController.to_dict g = [] :=
  ⟨rfl, rfl⟩

/-- C4: the frame-rate setter raises ValueError exactly when the frame rate
lies outside [1, 60]; for every frame rate in [1, 60] it stores the value and
raises nothing. -/
theorem c4_frame_rate_setter (σ κ : Type) (w : BaseWindow σ κ) (fr : Int) :
    ((∃ msg, BaseWindow.set_frame_rate w fr = .error (.valueError msg)) ↔
        fr < 1 ∨ 60 < fr) ∧
    (1 ≤ fr → fr ≤ 60 →
        BaseWindow.set_frame_rate w fr = .ok { w with frame_rate := fr }) := by
  by_cases h : fr < 1 ∨ 60 < fr
  · refine ⟨⟨fun _ => h,
      fun _ => ⟨"The frame rate has to be between 1 and 60.",
        by simp [BaseWindow.set_frame_rate, h]⟩⟩, ?_⟩
    intro h1 h60
    exfalso
    rcases h with h | h <;> omega
  · refine ⟨⟨?_, fun hh => absurd hh h⟩, ?_⟩
    · rintro ⟨msg, hmsg⟩
      simp [BaseWindow.set_frame_rate, h] at hmsg
    · intro h1 h60
      simp [BaseWindow.set_frame_rate, h]

/-- Witness for C4 at the in-range frame rate 30 and the out-of-range
frame rate 0. -/
theorem c4_frame_rate_setter_witness :
    ((1 : Int) ≤ 30 ∧ (30 : Int) ≤ 60 ∧
      BaseWindow.set_frame_rate sampleWindow 30 = .ok { sampleWindow with frame_rate := 30 }) ∧
    (∃ msg, BaseWindow.set_frame_rate sampleWindow 0 = .error (.valueError msg)) :=
  ⟨⟨by decide, by decide,
    (c4_frame_rate_setter Unit CallbackTag sampleWindow 30).2 (by decide) (by decide)⟩,
   (c4_frame_rate_setter Unit CallbackTag sampleWindow 0).1.mpr (by decide)⟩

/-- C5: deserializing any mapping that is missing one of the keys "x", "y",
"direction" raises a KeyError and returns the controller state — in particular
the sprite's position and direction — unchanged. -/
theorem c5_from_dict_missing_key (c : RobotController) (d : List (String × PyVal))
    (h : dictGet "x" d = none ∨ dictGet "y" d = none ∨ dictGet "direction" d = none) :
    ∃ k, RobotController.from_dict_run c d = (c, some (PyErr.keyError k)) := by
  rcases hx : dictGet "x" d with _ | xv
  · exact ⟨"x", by simp [RobotController.from_dict_run, hx]⟩
  · rcases hy : dictGet "y" d with _ | yv
    · exact ⟨"y", by simp [RobotController.from_dict_run, hx, hy]⟩
    · rcases hdir : dictGet "direction" d with _ | dv
      · exact ⟨"direction", by simp [RobotController.from_dict_run, hx, hy, hdir]⟩
      · simp [hx, hy, hdir] at h

/-- Witness for C5 on the empty mapping. -/
theorem c5_from_dict_missing_key_witness :
    (dictGet "x" ([] : List (String × PyVal)) = none ∨
     dictGet "y" ([] : List (String × PyVal)) = none ∨
     dictGet "direction" ([] : List (String × PyVal)) = none) ∧
    ∃ k, RobotController.from_dict_run sampleCtrl [] = (sampleCtrl, some (PyErr.keyError k)) :=
  ⟨Or.inl rfl, c5_from_dict_missing_key sampleCtrl [] (Or.inl rfl)⟩

/-- C3: in CREATOR mode, toggling a non-toggled robot controller twice returns
it to its original visual state: both calls succeed, the toggled flag is false
again, the shortcut text color is back to SHORTCUT_TEXT_COLOR, and the window's
callback table no longer contains a MOUSE_CLICK entry. -/
theorem c3_double_toggle (c : RobotController)
    (hmode : c.app_mode = AppMode.CREATOR)
    (htog : c.toggled = false)
    (hkeys : (keys c.window.callbacks).Nodup) :
    ∃ c₁ c₂, RobotController.toggle c = .ok c₁ ∧ RobotController.toggle c₁ = .ok c₂ ∧
      c₂.toggled = false ∧ c₂.text_color = SHORTCUT_TEXT_COLOR ∧
      dictGet EventType.MOUSE_CLICK c₂.window.callbacks = none := by
  obtain ⟨mode, tog, spr, col, win⟩ := c
  simp only at hmode htog hkeys
  subst hmode htog
  have hnd : (keys (dictSet EventType.MOUSE_CLICK CallbackTag.onMouseClick
      win.callbacks)).Nodup := nodup_keys_dictSet _ _ _ hkeys
  have hhas : hasKey EventType.MOUSE_CLICK (dictSet EventType.MOUSE_CLICK
      CallbackTag.onMouseClick win.callbacks) = true := by
    simp [hasKey, dictGet_dictSet_self]
  obtain ⟨cbs', hdel⟩ := dictDel_isSome_of_hasKey _ _ hhas
  refine ⟨{ app_mode := AppMode.CREATOR, toggled := true, sprite := spr,
            text_color := SHORTCUT_TEXT_COLOR_ACTIVE,
            window := { win with callbacks := dictSet EventType.MOUSE_CLICK CallbackTag.onMouseClick win.callbacks } },
          { app_mode := AppMode.CREATOR, toggled := false, sprite := spr,
            text_color := SHORTCUT_TEXT_COLOR,
            window := { win with callbacks := cbs' } },
          rfl, ?_, rfl, rfl, ?_⟩
  · simp [RobotController.toggle, BaseWindow.remove_callback, BaseWindow.on_callback, hdel]
  · exact dictGet_dictDel_self _ _ _ hnd hdel

/-- Witness for C3 on the concrete non-toggled CREATOR controller. -/
theorem c3_double_toggle_witness :
    sampleCtrl.app_mode = AppMode.CREATOR ∧ sampleCtrl.toggled = false ∧
    (keys sampleCtrl.window.callbacks).Nodup ∧
    ∃ c₁ c₂, RobotController.toggle sampleCtrl = .ok c₁ ∧
      RobotController.toggle c₁ = .ok c₂ ∧
      c₂.toggled = false ∧ c₂.text_color = SHORTCUT_TEXT_COLOR ∧
      dictGet EventType.MOUSE_CLICK c₂.window.callbacks = none :=
  ⟨rfl, rfl, by decide,
   c3_double_toggle sampleCtrl rfl rfl (by decide)⟩

/-- C6: a mouse click on a toggled controller commits the click position: the
call succeeds, the sprite's position becomes `pos`, `to_dict` reports "x" and
"y" equal to the click coordinates (and the direction unchanged), and the
controller has left toggle mode. -/
theorem c6_mouse_click_commits (c : RobotController) (pos : Int × Int)
    (hmode : c.app_mode = AppMode.CREATOR)
    (htog : c.toggled = true)
    (hreg : hasKey EventType.MOUSE_CLICK c.window.callbacks = true) :
    ∃ c', RobotController.on_mouse_click c pos = .ok c' ∧
      c'.sprite.get_position = (PyVal.int pos.1, PyVal.int pos.2) ∧
      RobotController.to_dict c' =
        [("robot", PyVal.dict [("x", PyVal.int pos.1), ("y", PyVal.int pos.2),
                               ("direction", c.sprite.direction)])] ∧
      c'.toggled = false := by
  obtain ⟨mode, tog, spr, col, win⟩ := c
  simp only at hmode htog hreg ⊢
  subst hmode htog
  obtain ⟨cbs', hdel⟩ := dictDel_isSome_of_hasKey _ _ hreg
  refine ⟨{ app_mode := AppMode.CREATOR, toggled := false,
            sprite := { x := PyVal.int pos.1, y := PyVal.int pos.2,
                        direction := spr.direction },
            text_color := SHORTCUT_TEXT_COLOR,
            window := { win with callbacks := cbs' } },
          ?_, rfl, rfl, rfl⟩
  simp [RobotController.on_mouse_click, RobotController.toggle, RobotSprite.set_position,
        BaseWindow.remove_callback, hdel]

/-- Witness for C6 on the concrete toggled controller and the click (3, 4). -/
theorem c6_mouse_click_commits_witness :
    sampleToggledCtrl.app_mode = AppMode.CREATOR ∧ sampleToggledCtrl.toggled = true ∧
    hasKey EventType.MOUSE_CLICK sampleToggledCtrl.window.callbacks = true ∧
    ∃ c', RobotController.on_mouse_click sampleToggledCtrl (3, 4) = .ok c' ∧
      c'.sprite.get_position = (PyVal.int 3, PyVal.int 4) ∧
      RobotController.to_dict c' =
        [("robot", PyVal.dict [("x", PyVal.int 3), ("y", PyVal.int 4),
                               ("direction", sampleToggledCtrl.sprite.direction)])] ∧
      c'.toggled = false :=
  ⟨rfl, rfl, by decide,
   c6_mouse_click_commits sampleToggledCtrl (3, 4) rfl rfl (by decide)⟩

/-- C7: the window invokes at most one callback per event type: on a table with
duplicate-free keys, `on_callback` keeps the keys duplicate-free and replaces
the function stored for an already-registered type (afterwards the type
resolves to the new function and every other type resolves as before), and a
successful `remove_callback` keeps the keys duplicate-free as well. -/
theorem c7_at_most_one_callback (σ κ : Type) (w : BaseWindow σ κ) (t : EventType) (f : κ)
    (h : (keys w.callbacks).Nodup) :
    (keys (BaseWindow.on_callback w t f).callbacks).Nodup ∧
    dictGet t (BaseWindow.on_callback w t f).callbacks = some f ∧
    (∀ t', t' ≠ t →
      dictGet t' (BaseWindow.on_callback w t f).callbacks = dictGet t' w.callbacks) ∧
    (∀ w', BaseWindow.remove_callback w t = .ok w' → (keys w'.callbacks).Nodup) := by
  refine ⟨nodup_keys_dictSet _ _ _ h, dictGet_dictSet_self _ _ _,
          fun t' ht' => dictGet_dictSet_ne _ _ _ _ ht', fun w' hw' => ?_⟩
  unfold BaseWindow.remove_callback at hw'
  rcases hdel : dictDel t w.callbacks with _ | cbs
  · rw [hdel] at hw'
    cases hw'
  · rw [hdel] at hw'
    simp only [Except.ok.injEq] at hw'
    subst hw'
    exact nodup_keys_dictDel _ _ _ h hdel

/-- Witness for C7 on the concrete window, re-registering the placement
shortcut's event type with a different function. -/
theorem c7_at_most_one_callback_witness :
    (keys sampleWindow.callbacks).Nodup ∧
    ((keys (BaseWindow.on_callback sampleWindow EventType.CREATOR_PLACE_ROBOT
        (CallbackTag.other 0)).callbacks).Nodup ∧
     dictGet EventType.CREATOR_PLACE_ROBOT
        (BaseWindow.on_callback sampleWindow EventType.CREATOR_PLACE_ROBOT
          (CallbackTag.other 0)).callbacks = some (CallbackTag.other 0) ∧
     (∀ t', t' ≠ EventType.CREATOR_PLACE_ROBOT →
        dictGet t' (BaseWindow.on_callback sampleWindow EventType.CREATOR_PLACE_ROBOT
          (CallbackTag.other 0)).callbacks = dictGet t' sampleWindow.callbacks) ∧
     (∀ w', BaseWindow.remove_callback sampleWindow EventType.CREATOR_PLACE_ROBOT = .ok w' →
        (keys w'.callbacks).Nodup)) :=
  ⟨by decide,
   c7_at_most_one_callback Unit CallbackTag sampleWindow EventType.CREATOR_PLACE_ROBOT
     (CallbackTag.other 0) (by decide)⟩

/-- The sorted sprite list produced by `_update_sprite_list` holds exactly the
sprite table's values (a permutation) in weakly descending zindex order. -/
theorem update_sprite_list_sorted (σ κ : Type) (w : BaseWindow σ κ) :
    ((BaseWindow.update_sprite_list w).sprite_list).Perm (w.sprites.map Prod.snd) ∧
    ((BaseWindow.update_sprite_list w).sprite_list).Pairwise
      (fun a b : Int × σ => b.1 ≤ a.1) := by
  constructor
  · exact List.mergeSort_perm _ _
  · have htrans : ∀ a b c : Int × σ,
        zindexDescLe a b → zindexDescLe b c → zindexDescLe a c := by
      intro a b c hab hbc
      simp [zindexDescLe] at hab hbc ⊢
      omega
    have htotal : ∀ a b : Int × σ, zindexDescLe a b || zindexDescLe b a := by
      intro a b
      simp [zindexDescLe]
      omega
    have hsorted := List.sorted_mergeSort htrans htotal (w.sprites.map Prod.snd)
    exact hsorted.imp (fun hab => of_decide_eq_true hab)

/-- C8: sprites are drawn in z-index order: after any `add_sprite` and after
any `remove_sprite` the sprite list holds exactly the registered sprites —
a permutation of the sprite table's values — sorted by weakly descending
zindex (higher zindex drawn earlier), and one pass of the render loop draws
precisely the sprite list in that order. -/
theorem c8_draw_in_zindex_order (σ κ : Type) (w : BaseWindow σ κ) (name : String)
    (sp : σ) (z : Int) :
    ((BaseWindow.add_sprite w name sp z).sprite_list).Perm
        ((BaseWindow.add_sprite w name sp z).sprites.map Prod.snd) ∧
    ((BaseWindow.add_sprite w name sp z).sprite_list).Pairwise
        (fun a b : Int × σ => b.1 ≤ a.1) ∧
    ((BaseWindow.remove_sprite w name).sprite_list).Perm
        ((BaseWindow.remove_sprite w name).sprites.map Prod.snd) ∧
    ((BaseWindow.remove_sprite w name).sprite_list).Pairwise
        (fun a b : Int × σ => b.1 ≤ a.1) ∧
    BaseWindow.frame_draw_pass (BaseWindow.add_sprite w name sp z) =
      ((BaseWindow.add_sprite w name sp z).sprite_list).map Prod.snd :=
  ⟨(update_sprite_list_sorted σ κ _).1, (update_sprite_list_sorted σ κ _).2,
   (update_sprite_list_sorted σ κ _).1, (update_sprite_list_sorted σ κ _).2, rfl⟩

/-- C9: removing an unregistered sprite name does not raise (the source uses
`pop` with a default, in contrast to `remove_callback`, so the operation is
total) and leaves the window — in particular the sprite table and the sorted
sprite list — entirely unchanged; the second hypothesis is the invariant that
`_update_sprite_list` maintains after every sprite operation. -/
theorem c9_remove_absent_sprite (σ κ : Type) (w : BaseWindow σ κ) (name : String)
    (habs : dictGet name w.sprites = none)
    (hinv : w.sprite_list = (w.sprites.map Prod.snd).mergeSort zindexDescLe) :
    BaseWindow.remove_sprite w name = w := by
  unfold BaseWindow.remove_sprite BaseWindow.update_sprite_list
  rw [dictPop_of_absent name w.sprites habs, ← hinv]

/-- Witness for C9: removing the unregistered name "ghost" from the concrete
window. -/
theorem c9_remove_absent_sprite_witness :
    dictGet "ghost" sampleWindow.sprites = none ∧
    sampleWindow.sprite_list = (sampleWindow.sprites.map Prod.snd).mergeSort zindexDescLe ∧
    BaseWindow.remove_sprite sampleWindow "ghost" = sampleWindow :=
  ⟨rfl, by simp [sampleWindow],
   c9_remove_absent_sprite Unit CallbackTag sampleWindow "ghost" rfl (by simp [sampleWindow])⟩

/-- C10: `remove_callback` on an event type with no registered callback raises
a KeyError (there is no silent no-op); on a registered type it removes exactly
that entry — the type no longer resolves, every other type resolves as before,
and the frame rate, sprite table and sprite list are untouched. -/
theorem c10_remove_callback_exact (σ κ : Type) (w : BaseWindow σ κ) (t : EventType)
    (hnd : (keys w.callbacks).Nodup) :
    (hasKey t w.callbacks = false →
      BaseWindow.remove_callback w t = .error (PyErr.keyError t.name)) ∧
    (hasKey t w.callbacks = true →
      ∃ w', BaseWindow.remove_callback w t = .ok w' ∧
        dictGet t w'.callbacks = none ∧
        (∀ t', t' ≠ t → dictGet t' w'.callbacks = dictGet t' w.callbacks) ∧
        w'.frame_rate = w.frame_rate ∧ w'.sprites = w.sprites ∧
        w'.sprite_list = w.sprite_list) := by
  constructor
  · intro habs
    have hget : dictGet t w.callbacks = none := by
      rcases hg : dictGet t w.callbacks with _ | v
      · rfl
      · rw [hasKey, hg] at habs
        simp at habs
    unfold BaseWindow.remove_callback
    rw [dictDel_eq_none_of_absent t w.callbacks hget]
  · intro hhas
    obtain ⟨cbs', hdel⟩ := dictDel_isSome_of_hasKey _ _ hhas
    refine ⟨{ w with callbacks := cbs' }, ?_, ?_, ?_, rfl, rfl, rfl⟩
    · unfold BaseWindow.remove_callback
      rw [hdel]
    · exact dictGet_dictDel_self _ _ _ hnd hdel
    · exact fun t' ht' => dictGet_dictDel_ne _ _ ht' _ _ hdel

/-- Witness for C10 on the concrete window: the unregistered type QUIT raises,
and the registered placement-shortcut type is removed exactly. -/
theorem c10_remove_callback_exact_witness :
    ((keys sampleWindow.callbacks).Nodup ∧
     (hasKey EventType.QUIT sampleWindow.callbacks = false →
       BaseWindow.remove_callback sampleWindow EventType.QUIT =
         .error (PyErr.keyError EventType.QUIT.name))) ∧
    ((hasKey EventType.CREATOR_PLACE_ROBOT sampleWindow.callbacks = true →
      ∃ w', BaseWindow.remove_callback sampleWindow EventType.CREATOR_PLACE_ROBOT = .ok w' ∧
        dictGet EventType.CREATOR_PLACE_ROBOT w'.callbacks = none ∧
        (∀ t', t' ≠ EventType.CREATOR_PLACE_ROBOT →
          dictGet t' w'.callbacks = dictGet t' sampleWindow.callbacks) ∧
        w'.frame_rate = sampleWindow.frame_rate ∧ w'.sprites = sampleWindow.sprites ∧
        w'.sprite_list = sampleWindow.sprite_list)) :=
  ⟨⟨by decide,
    (c10_remove_callback_exact Unit CallbackTag sampleWindow EventType.QUIT (by decide)).1⟩,
   (c10_remove_callback_exact Unit CallbackTag sampleWindow EventType.CREATOR_PLACE_ROBOT
     (by decide)).2⟩

end ARS
